import Mathlib

/-
Verification development for the `llm_agro_hackathon` repository.

The repository consists of five Python source files:
  * src/bot/src/report_builder.py  — multi-stage LLM extraction/validation pipeline
  * src/bot/src/telegram_bot.py    — chat-bot front end (correction dialogue, confirmation)
  * src/bot/main.py                — wiring
  * src/db/interaction.py          — persistence CRUD operations
  * src/app/dashboard.py           — analytics dashboard (filters, export)

The definitions below are a shallow embedding of those files.  External
collaborators (the LLM endpoint, the chat platform, pandas/SQLAlchemy
machinery) are abstracted as oracles or explicit data; every function of the
repository that a claim touches is translated statement by statement, and the
comments cite the source lines.  Helpers that live in files absent from the
sources (src/bot/src/utils.py, src/db/models.py) are modelled from the
specification and marked as such in their doc comments.
-/

namespace Agro

/-- Python exception classes that the embedded code can raise.  A value of
this type models an exception propagating out of the translated function. -/
inductive PyExc where
  | typeError
  | valueError
  | validationError
  | keyError
  | indexError
  | unboundLocalError
  | nameError
  | attributeError
deriving DecidableEq, Repr

/-! ### Calendar dates

`report_builder.py` stores dates as `datetime` values; only the calendar day
matters (times are always midnight there).  `dashboard.py` works with pandas
timestamps, modelled further below on top of the same `Date`. -/

structure Date where
  day : Nat
  month : Nat
  year : Nat
deriving DecidableEq, Repr

/-- Leap-year rule used by `datetime` (proleptic Gregorian). -/
def isLeapYear (y : Nat) : Bool :=
  y % 4 = 0 && (y % 100 ≠ 0 || y % 400 = 0)

/-- Days in a month, as `datetime.date` enforces on construction. -/
def daysInMonth (y m : Nat) : Nat :=
  if m = 2 then (if isLeapYear y then 29 else 28)
  else if m = 4 || m = 6 || m = 9 || m = 11 then 30
  else 31

/-! ### Digit strings: rendering and parsing

`strftime("%d.%m.%Y")` renders zero-padded components; CPython's `_strptime`
matches `%d` with the regex `(3[01]|[12]\d|0[1-9]|[1-9])`, `%m` with
`(1[0-2]|0[1-9]|[1-9])` and `%Y` with `(\d\d\d\d)`, requires the whole input
string to be consumed, and then validates the calendar via the `datetime`
constructor.  Those regexes are reproduced below on lists of characters. -/

def digitChar (k : Nat) : Char := Char.ofNat (48 + k)

def isDigitC (c : Char) : Bool := 48 ≤ c.toNat && c.toNat ≤ 57

def charDigit (c : Char) : Nat := c.toNat - 48

/-- Numeric value of a digit string. -/
def digitsVal (l : List Char) : Nat := l.foldl (fun a c => 10 * a + charDigit c) 0

/-- Two-digit zero-padded rendering (`%d`, `%m` in `strftime`). -/
def pad2 (n : Nat) : String := ⟨[digitChar (n / 10 % 10), digitChar (n % 10)]⟩

/-- Four-digit zero-padded rendering (`%Y` in `strftime`, for years 1000–9999
this agrees with every CPython platform; smaller years are platform-dependent
and the theorems below restrict to four-digit years). -/
def pad4 (n : Nat) : String :=
  ⟨[digitChar (n / 1000 % 10), digitChar (n / 100 % 10),
    digitChar (n / 10 % 10), digitChar (n % 10)]⟩

/-- `datetime.strftime("%d.%m.%Y")` — the display format of the pipeline. -/
def renderDMY (d : Date) : String := pad2 d.day ++ "." ++ pad2 d.month ++ "." ++ pad4 d.year

/-- ISO rendering `YYYY-MM-DD` (`str` of a Python `date`). -/
def renderYMD (d : Date) : String := pad4 d.year ++ "-" ++ pad2 d.month ++ "-" ++ pad2 d.day

/-- Split a character list at every occurrence of `sep` (like Python's
`str.split` with an explicit separator: empty segments are kept). -/
def splitOnC (sep : Char) : List Char → List (List Char)
  | [] => [[]]
  | c :: cs =>
    let r := splitOnC sep cs
    if c = sep then [] :: r
    else
      match r with
      | g :: gs => (c :: g) :: gs
      | [] => [[c]]

/-- The `%d` regex `(3[01]|[12]\d|0[1-9]|[1-9])` applied to a whole segment:
one or two digits with value 1–31. -/
def dayPat (l : List Char) : Option Nat :=
  if l.all isDigitC && (l.length = 1 || l.length = 2) then
    let v := digitsVal l
    if 1 ≤ v && v ≤ 31 then some v else none
  else none

/-- The `%m` regex `(1[0-2]|0[1-9]|[1-9])` applied to a whole segment. -/
def monthPat (l : List Char) : Option Nat :=
  if l.all isDigitC && (l.length = 1 || l.length = 2) then
    let v := digitsVal l
    if 1 ≤ v && v ≤ 12 then some v else none
  else none

/-- The `%Y` regex `(\d\d\d\d)`: exactly four digits. -/
def yearPat (l : List Char) : Option Nat :=
  if l.all isDigitC && l.length = 4 then some (digitsVal l) else none

/-- Calendar validity enforced by the `datetime` constructor: year at least
`MINYEAR = 1` and the day within the month's length. -/
def mkDate (y m d : Nat) : Option Date :=
  if 1 ≤ y && d ≤ daysInMonth y m then some ⟨d, m, y⟩ else none

/-- `datetime.strptime(s, "%d.%m.%Y")` as an `Option`.  The regex
`day \. month \. year` over the whole string is equivalent to splitting on
`'.'` into exactly three dot-free segments, because the component patterns
match only digit characters. -/
def strptimeDMY (s : String) : Option Date :=
  match splitOnC '.' s.data with
  | [a, b, c] =>
    match dayPat a, monthPat b, yearPat c with
    | some d, some m, some y => mkDate y m d
    | _, _, _ => none
  | _ => none

/-- `datetime.strptime(s, "%Y-%m-%d")` as an `Option`. -/
def strptimeYMD (s : String) : Option Date :=
  match splitOnC '-' s.data with
  | [a, b, c] =>
    match yearPat a, monthPat b, dayPat c with
    | some y, some m, some d => mkDate y m d
    | _, _, _ => none
  | _ => none

/-- `OperationEntry.validate_date` (report_builder.py lines 42–59): try
`"%d.%m.%Y"`, then `"%Y-%m-%d"`, else raise; on success the date is rendered
back to `"%d.%m.%Y"` text (line 57) and immediately re-parsed into a
`datetime` (line 58), so the stored value is the parsed calendar date. -/
def validate_date (s : String) : Except String Date :=
  match strptimeDMY s with
  | some d =>
    -- lines 57–58: strftime to DD.MM.YYYY text, then strptime back
    match strptimeDMY (renderDMY d) with
    | some d' => .ok d'
    | none => .error "Invalid date format"
  | none =>
    match strptimeYMD s with
    | some d =>
      match strptimeDMY (renderDMY d) with
      | some d' => .ok d'
      | none => .error "Invalid date format"
    | none => .error "Invalid date format"


/-! ### report_builder.py — data model

`OperationEntry` (lines 31–77) is a pydantic model.  Raw LLM completions are
abstracted at the JSON level: `RawEntry` is an arbitrary JSON object projected
to the model's nine keys (pydantic ignores unknown keys; the four numeric
fields are populated through their aliases `"За день, га"` …), `PyJson` the
shape of a parsed completion, and `LLMOut` a completion together with the
outcome of `clean_string` + parsing: `sentinel` is a completion whose cleaned
text equals `"Отчёт не может быть обработан."` (line 127), `unparsable` one
that `json.loads` / `ast.literal_eval` reject, and `json v` a parseable one. -/

/-- A JSON value stored under one of the known keys: an integer, a string, or
anything else (`other`, which no field of the model accepts; for the optional
fields an explicit JSON `null` behaves like an absent key and is represented
by `none`). -/
inductive FieldVal where
  | int (i : Int)
  | str (s : String)
  | other
deriving DecidableEq, Repr

structure RawEntry where
  «Дата» : Option FieldVal := none
  «Операция» : Option FieldVal := none
  «Данные» : Option FieldVal := none
  «Подразделение» : Option FieldVal := none
  «Культура» : Option FieldVal := none
  «За_день_га» : Option FieldVal := none
  «С_начала_операции_га» : Option FieldVal := none
  «Вал_за_день_ц» : Option FieldVal := none
  «Вал_с_начала_ц» : Option FieldVal := none
deriving DecidableEq, Repr

/-- A parsed completion: a JSON object, a JSON array of objects, or any other
JSON value (array elements that are not objects behave, under validation,
like empty objects — every required field missing — and are representable as
the all-`none` `RawEntry`). -/
inductive PyJson where
  | dict (e : RawEntry)
  | list (es : List RawEntry)
  | scalar
deriving DecidableEq, Repr

inductive LLMOut where
  | sentinel
  | unparsable
  | json (v : PyJson)
deriving DecidableEq, Repr

/-- The external LLM endpoint: the completion returned by the k-th `predict`
call of a build.  The call sequence is deterministic, so indexing by call
number loses no generality. -/
def Oracle := Nat → LLMOut

/-- Modelled from the spec: `load_entities()` (src/bot/src/utils.py is not
among the sources) returns the three allowed-value taxonomies as a mapping
`taxonomy name → list of legal strings` (§4.3), read-only after load. -/
structure Entities where
  type : List String
  culture : List String
  division : List String
deriving Repr

/-- A validated value of one of the four `Union[int, str]` numeric fields. -/
inductive NumVal where
  | int (i : Int)
  | str (s : String)
deriving DecidableEq, Repr

/-- A validated `OperationEntry` (the pydantic model after all validators
have run): the date is a `datetime`, the optional categorical fields carry
validated strings, the numeric fields int-or-string values. -/
structure OperationEntry where
  «Дата» : Date
  «Операция» : String
  «Данные» : String
  «Подразделение» : Option String
  «Культура» : Option String
  «За_день_га» : Option NumVal
  «С_начала_операции_га» : Option NumVal
  «Вал_за_день_ц» : Option NumVal
  «Вал_с_начала_ц» : Option NumVal
deriving DecidableEq, Repr

/-- A value of a Python dict produced by `model_dump`: a `datetime`, a
string, or an integer. -/
inductive DVal where
  | date (d : Date)
  | str (s : String)
  | int (i : Int)
deriving DecidableEq, Repr

/-- A Python dict with string keys, as an insertion-ordered association
list — the iteration order of `dict.items()` is insertion order, which the
correction dialogue of the front end depends on. -/
abbrev Dict := List (String × DVal)

def dictGet (d : Dict) (k : String) : Option DVal :=
  match d with
  | [] => none
  | (k', v) :: rest => if k' = k then some v else dictGet rest k

/-- `d[k] = v`: replace in place if the key exists, else append. -/
def dictSet (d : Dict) (k : String) (v : DVal) : Dict :=
  match d with
  | [] => [(k, v)]
  | (k', v') :: rest => if k' = k then (k, v) :: rest else (k', v') :: dictSet rest k v

/-- `d.pop(k)`: the removed value and the remaining dict, or `none` (a
`KeyError` at the call site) if the key is absent. -/
def dictPop (d : Dict) (k : String) : Option (DVal × Dict) :=
  match d with
  | [] => none
  | (k', v') :: rest =>
    if k' = k then some (v', rest)
    else (dictPop rest k).map (fun p => (p.1, (k', v') :: p.2))

/-- `d.pop(k, None)`: remove if present, never fail. -/
def dictRemove (d : Dict) (k : String) : Dict :=
  match dictPop d k with
  | none => d
  | some (_, rest) => rest

def dictKeys (d : Dict) : List String := d.map (·.1)

/-! ### report_builder.py — validation -/

/-- `validate_division` / `validate_culture` (lines 67–77) on an optional
field, composed with pydantic's `Optional[str]` typing: absent stays `None`;
a string passes when it is empty (the validators guard with `if v`) or
belongs to the taxonomy; a non-string input is a type `ValidationError`. -/
def checkOptStr (v : Option FieldVal) (allowed : List String) : Option (Option String) :=
  match v with
  | none => some none
  | some (.str s) => if s = "" ∨ s ∈ allowed then some (some s) else none
  | some _ => none

/-- pydantic typing of the `Optional[Union[int, str]]` numeric fields. -/
def checkNum (v : Option FieldVal) : Option (Option NumVal) :=
  match v with
  | none => some none
  | some (.int i) => some (some (.int i))
  | some (.str s) => some (some (.str s))
  | some .other => none

/-- Validation of one `OperationEntry` (lines 31–77).  The `mode="before"`
model validator `validate_date` runs first: `datetime.strptime` applied to a
non-string raises `TypeError`, which pydantic does not convert to a
`ValidationError`, so it propagates; a string in neither accepted format
raises `ValueError`, becoming a `ValidationError`.  Then the field types and
the three taxonomy validators run; any failure is a `ValidationError`.  Note
`validate_operation` (line 61–65) has no `if v` guard, so the empty string is
only accepted for `Операция` when it is in the taxonomy. -/
def validateEntry (ents : Entities) (e : RawEntry) : Except PyExc OperationEntry :=
  match e.«Дата» with
  | none => .error .validationError
  | some (.int _) => .error .typeError
  | some .other => .error .typeError
  | some (.str s) =>
    match validate_date s with
    | .error _ => .error .validationError
    | .ok d =>
      match e.«Операция» with
      | some (.str op) =>
        if op ∈ ents.type then
          match e.«Данные» with
          | some (.str dat) =>
            match checkOptStr e.«Подразделение» ents.division,
                  checkOptStr e.«Культура» ents.culture,
                  checkNum e.«За_день_га», checkNum e.«С_начала_операции_га»,
                  checkNum e.«Вал_за_день_ц», checkNum e.«Вал_с_начала_ц» with
            | some pod, some kul, some a, some b, some c, some v =>
              .ok ⟨d, op, dat, pod, kul, a, b, c, v⟩
            | _, _, _, _, _, _ => .error .validationError
          | _ => .error .validationError
        else .error .validationError
      | _ => .error .validationError

/-- `OperationList.model_validate` on a JSON array: pydantic validates the
elements in order, collecting `ValidationError`s into one, but an element
whose validator raises `TypeError` aborts immediately. -/
def model_validate_list (ents : Entities) (es : List RawEntry) :
    Except PyExc (List OperationEntry) :=
  match es with
  | [] => .ok []
  | e :: rest =>
    match validateEntry ents e with
    | .error .typeError => .error .typeError
    | .error _ =>
      match model_validate_list ents rest with
      | .error .typeError => .error .typeError
      | _ => .error .validationError
    | .ok ve =>
      match model_validate_list ents rest with
      | .ok ves => .ok (ve :: ves)
      | .error err => .error err

def numDV : NumVal → DVal
  | .int i => .int i
  | .str s => .str s

/-- `model_dump(exclude_none=True)`: field-declaration order, `None` fields
omitted.  The dump uses the python attribute names (`За_день_га` …), not the
aliases — exactly what `build` later pops. -/
def dumpEntry (e : OperationEntry) : Dict :=
  [("Дата", .date e.«Дата»), ("Операция", .str e.«Операция»), ("Данные", .str e.«Данные»)]
  ++ (match e.«Подразделение» with | some s => [("Подразделение", DVal.str s)] | none => [])
  ++ (match e.«Культура» with | some s => [("Культура", DVal.str s)] | none => [])
  ++ (match e.«За_день_га» with | some v => [("За_день_га", numDV v)] | none => [])
  ++ (match e.«С_начала_операции_га» with
      | some v => [("С_начала_операции_га", numDV v)] | none => [])
  ++ (match e.«Вал_за_день_ц» with | some v => [("Вал_за_день_ц", numDV v)] | none => [])
  ++ (match e.«Вал_с_начала_ц» with | some v => [("Вал_с_начала_ц", numDV v)] | none => [])

/-! ### report_builder.py — pipeline -/

/-- `self.model.predict(prompt, payload)` — one call to the LLM endpoint,
consuming the next oracle answer.  Prompt contents do not influence the
embedding beyond the call order. -/
def predict (o : Oracle) (n : Nat) : LLMOut × Nat := (o n, n + 1)

def joinC (l : List String) : String := String.intercalate ", " l

/-- `ReportBuilder._correct_fields` (lines 94–112): the local `allowed` is
assigned only by the three `if field == …` statements; for any other value of
`field` (in particular `None`, the final computation stage) the
`load_prompt(..., allowed=allowed)` call raises `UnboundLocalError` before
any prompt is rendered or any LLM call is made. -/
def correct_fields (ents : Entities) (o : Oracle) (field : Option String) (n : Nat) :
    Except PyExc (LLMOut × Nat) :=
  let allowed : Option String :=
    if field = some "Операция" then some (joinC ents.type)
    else if field = some "Культура" then some (joinC ents.culture)
    else if field = some "Подразделение" then some (joinC ents.division)
    else none
  match allowed with
  | none => .error .unboundLocalError
  | some _ => .ok (predict o n)

/-- `ReportBuilder._correct_json` (lines 114–122): re-prompt the LLM to
repair its own output. -/
def correct_json (o : Oracle) (n : Nat) : LLMOut × Nat := predict o n

/-- `ast.literal_eval(clean_string(...))` applied to a completion: yields the
parsed value, or raises (`ValueError`/`SyntaxError`) on malformed input — in
particular on the sentinel text, which is not a Python literal. -/
def literal_eval (out : LLMOut) : Except PyExc PyJson :=
  match out with
  | .json v => .ok v
  | _ => .error .valueError

/-- `ReportBuilder._validate` with `initial=True` (lines 124–158).  Notable
source facts reproduced here: in the `except ValidationError` branch (lines
137–142) the correction completion is passed to `OperationList.model_validate`
as the raw string, which always raises `ValidationError` again; exceptions
raised inside `except` handlers are not caught by the sibling
`except Exception` clause; that clause (lines 155–158) logs the failure and
re-raises it unchanged. -/
def validate_initial (ents : Entities) (o : Oracle) (report : LLMOut)
    (field : Option String) (n : Nat) : Except PyExc (List Dict × Nat) :=
  match report with
  | .sentinel => .error .valueError      -- line 128: raise ValueError → logged, re-raised
  | .unparsable =>
    -- except json.decoder.JSONDecodeError (lines 147–152)
    let (correction, n') := correct_json o n
    match literal_eval correction with
    | .error e => .error e
    | .ok (.list es) =>
      match model_validate_list ents es with
      | .ok ves => .ok (ves.map dumpEntry, n')
      | .error e => .error e
    | .ok _ => .error .validationError   -- model_validate of a non-list value
  | .json v =>
    match v with
    | .list es =>
      match model_validate_list ents es with
      | .ok ves => .ok (ves.map dumpEntry, n)
      | .error .validationError =>
        match correct_fields ents o field n with
        | .error e => .error e
        | .ok _ => .error .validationError  -- model_validate of the raw correction string
      | .error e => .error e               -- TypeError: logged and re-raised (lines 155–158)
    | _ =>
      -- model_validate of a non-list parse raises ValidationError; same handler
      match correct_fields ents o field n with
      | .error e => .error e
      | .ok _ => .error .validationError

/-- `ReportBuilder._validate` with `initial=False` (lines 124–158).  In the
`except json.decoder.JSONDecodeError` branch the code runs
`OperationEntry(**correction)` on the raw correction string (line 153), and
`**` of a `str` raises `TypeError` unconditionally. -/
def validate_entry (ents : Entities) (o : Oracle) (report : LLMOut)
    (field : Option String) (n : Nat) : Except PyExc (Dict × Nat) :=
  match report with
  | .sentinel => .error .valueError
  | .unparsable =>
    let (_, _) := correct_json o n
    .error .typeError                     -- line 153: OperationEntry(**raw string)
  | .json v =>
    match v with
    | .dict e =>
      match validateEntry ents e with
      | .ok ve => .ok (dumpEntry ve, n)
      | .error .validationError =>
        -- except ValidationError (lines 137–145)
        match correct_fields ents o field n with
        | .error e2 => .error e2
        | .ok (correction, n') =>
          match literal_eval correction with
          | .error e2 => .error e2
          | .ok (.dict e2) =>
            match validateEntry ents e2 with
            | .ok ve2 => .ok (dumpEntry ve2, n')
            | .error e3 => .error e3
          | .ok _ => .error .typeError    -- `**` of a non-mapping literal
      | .error e => .error e              -- TypeError: logged and re-raised
    | _ => .error .typeError              -- OperationEntry(**non-dict parse)

/-- `ReportBuilder._gather_validated` (lines 160–168): one LLM call per
existing entry, each validated as a single entry. -/
def gather_validated (ents : Entities) (o : Oracle) (entries : List Dict)
    (field : Option String) (n : Nat) : Except PyExc (List Dict × Nat) :=
  match entries with
  | [] => .ok ([], n)
  | _ :: rest =>
    let (raw, n1) := predict o n
    match validate_entry ents o raw field n1 with
    | .error err => .error err
    | .ok (d, n2) =>
      match gather_validated ents o rest field n2 with
      | .error err => .error err
      | .ok (ds, n3) => .ok (d :: ds, n3)

/-- `ReportBuilder._process_stage` with `initial=True` (lines 173–179). -/
def process_stage_initial (ents : Entities) (o : Oracle) (field : Option String)
    (n : Nat) : Except PyExc (List Dict × Nat) :=
  let (reports, n1) := predict o n
  validate_initial ents o reports field n1

/-- The fixed user-facing failure text (lines 25–27). -/
def ERROR_TEXT : String := "Ваш отчёт не может быть обработан 😭"

/-- Result of `ReportBuilder.build`: the fixed error text, or a list of
record dicts. -/
inductive BuildRes where
  | errorText
  | records (rs : List Dict)
deriving DecidableEq, Repr

/-- `item.pop(old)` followed by `item[new] = value` — one line of the final
renaming loop (lines 201–204). -/
def popSet (item : Dict) (old new : String) : Except PyExc Dict :=
  match dictPop item old with
  | none => .error .keyError
  | some (v, rest) => .ok (dictSet rest new v)

/-- One iteration of the final loop of `build` (lines 199–204): render the
date back to text in place, then rename the four numeric keys to their
display labels.  A missing key raises `KeyError`; `.strftime` on a non-date
value would raise `AttributeError`.  These exceptions are outside the
stage `try` and therefore escape `build`. -/
def renameItem (item : Dict) : Except PyExc Dict :=
  match dictGet item "Дата" with
  | none => .error .keyError
  | some (.date d) =>
    let i1 := dictSet item "Дата" (.str (renderDMY d))
    match popSet i1 "За_день_га" "За день, га" with
    | .error e => .error e
    | .ok i2 =>
      match popSet i2 "С_начала_операции_га" "С начала операции, га" with
      | .error e => .error e
      | .ok i3 =>
        match popSet i3 "Вал_за_день_ц" "Вал за день, ц" with
        | .error e => .error e
        | .ok i4 => popSet i4 "Вал_с_начала_ц" "Вал с начала, ц"
  | some _ => .error .attributeError

def renameAll (items : List Dict) : Except PyExc (List Dict) :=
  match items with
  | [] => .ok []
  | item :: rest =>
    match renameItem item with
    | .error e => .error e
    | .ok item' =>
      match renameAll rest with
      | .error e => .error e
      | .ok rest' => .ok (item' :: rest')

/-- `ReportBuilder.build` (lines 184–206): four stages, each wrapped in
`try … except Exception: return ERROR_TEXT`, followed by the (unguarded)
renaming loop.  The `report_data` argument only feeds the first prompt. -/
def build (ents : Entities) (o : Oracle) (report_data : String) : Except PyExc BuildRes :=
  let _ := report_data
  match process_stage_initial ents o (some "Операция") 0 with
  | .error _ => .ok .errorText
  | .ok (r1, n1) =>
    match gather_validated ents o r1 (some "Культура") n1 with
    | .error _ => .ok .errorText
    | .ok (r2, n2) =>
      match gather_validated ents o r2 (some "Подразделение") n2 with
      | .error _ => .ok .errorText
      | .ok (r3, n3) =>
        match gather_validated ents o r3 none n3 with
        | .error _ => .ok .errorText
        | .ok (r4, _) =>
          match renameAll r4 with
          | .error e => .error e
          | .ok items => .ok (.records items)


/-! ### telegram_bot.py — chat-bot front end

The platform objects (`Update`, `context.user_data`) are reduced to the data
the handlers inspect; outbound actions (replies, message edits, the call to
`self.builder.build`) become an ordered `BotEvent` trace.  An exception value
models the handler aborting (the platform-level `error_handler` would then
report it). -/

structure BotConfig where
  allowed_ids : List Int
  admin_ids : List Int
deriving Repr

/-- Modelled from the spec: `is_allowed` lives in src/bot/src/utils.py, which
is not among the sources.  §4.3: "returns whether the sending user's
identifier is present in the allow-list; admins are implicitly allowed." -/
def is_allowed (cfg : BotConfig) (user_id : Int) : Bool :=
  user_id ∈ cfg.allowed_ids || user_id ∈ cfg.admin_ids

/-- `context.user_data["corrections"]` (lines 283–287): the entries under
correction, the queue of (entry index, field name) pairs, and the cursor. -/
structure CorrectionData where
  entries : List Dict
  queue : List (Nat × String)
  current_index : Nat
deriving DecidableEq, Repr

/-- The per-chat session state kept in `context.user_data`. -/
structure UserData where
  awaiting_correction : Bool := false
  corrections : Option CorrectionData := none
  corrected_entries : Option (List Dict) := none
deriving DecidableEq, Repr

/-- Observable actions of the `prompt` handler, in order.  The two correction
prompts carry exactly the data interpolated into their message texts: the
displayed record number, the raw excerpt fetched by the code, and the field
name. -/
inductive BotEvent where
  | warn_not_allowed
  | disallowed_reply
  | ask_value
  | correction_intro (entry_num : Nat) (excerpt : DVal) (field : String)
  | correction_prompt (entry_num : Nat) (excerpt : DVal) (field : String)
  | confirm_keyboard (entries : List Dict)
  | file_processing_notice
  | attachment_failed_notice
  | building_notice
  | builder_call
  | error_text_reply
deriving DecidableEq, Repr

/-- The correction-reply branch of `prompt` (lines 152–221).  Python mutates
`user_data` in place; the embedding returns the successor state.  Line 184
reads `entries[entry_number]['Данные']` where `entry_number = next_entry_idx
+ 1` is the 1-based display number (line 181) — used here as a 0-based list
index.  When the queue is exhausted (lines 189–220) the raw excerpts are
stripped in place, so both `corrections.entries` and the newly set
`corrected_entries` alias the stripped list. -/
def handle_correction_reply (text : Option String) (ud : UserData) :
    Except PyExc (UserData × List BotEvent) :=
  match text with
  | none => .ok (ud, [.ask_value])
  | some t =>
    if t = "" then .ok (ud, [.ask_value])
    else
      let user_input := t.trim
      match ud.corrections with
      | none => .ok ({ ud with awaiting_correction := false }, [])
      | some cd =>
        if h : cd.current_index < cd.queue.length then
          let pair := cd.queue.get ⟨cd.current_index, h⟩
          if he : pair.1 < cd.entries.length then
            let entry := cd.entries.get ⟨pair.1, he⟩
            let entries1 := cd.entries.set pair.1 (dictSet entry pair.2 (.str user_input))
            let idx1 := cd.current_index + 1
            if h2 : idx1 < cd.queue.length then
              let next := cd.queue.get ⟨idx1, h2⟩
              let entry_number := next.1 + 1
              if h3 : entry_number < entries1.length then
                match dictGet (entries1.get ⟨entry_number, h3⟩) "Данные" with
                | some v =>
                  .ok ({ ud with corrections := some ⟨entries1, cd.queue, idx1⟩ },
                       [.correction_prompt entry_number v next.2])
                | none => .error .keyError
              else .error .indexError
            else
              let entries2 := entries1.map (fun e => dictRemove e "Данные")
              .ok ({ awaiting_correction := false,
                     corrections := some ⟨entries2, cd.queue, idx1⟩,
                     corrected_entries := some entries2 },
                   [.confirm_keyboard entries2])
          else .error .indexError
        else .ok ({ ud with awaiting_correction := false }, [])

/-- Lines 276–281: scan the build result in record order and, per record, in
the key order produced by the builder, collecting the fields whose value is
the sentinel string. -/
def buildQueue (rs : List Dict) : List (Nat × String) :=
  (rs.enum).flatMap (fun p =>
    p.2.filterMap (fun kv =>
      if kv.2 = DVal.str "Не определено" then some (p.1, kv.1) else none))

/-- Lines 269–345: dispatch on the build result.  On the fixed error text the
placeholder message is edited to it; on a record list either the correction
dialogue starts (lines 282–300, prompting with `response[first_entry_idx]
['Данные']` — the correct index here) or the excerpts are stripped and the
confirmation keyboard is shown (lines 302–326). -/
def handle_build_result (response : BuildRes) (ud : UserData) :
    Except PyExc (UserData × List BotEvent) :=
  match response with
  | .errorText => .ok (ud, [.error_text_reply])
  | .records rs =>
    match buildQueue rs with
    | first :: restQ =>
      match rs.get? first.1 with
      | none => .error .indexError
      | some entry =>
        match dictGet entry "Данные" with
        | none => .error .keyError
        | some v =>
          .ok ({ ud with
                 corrections := some ⟨rs, first :: restQ, 0⟩,
                 awaiting_correction := true },
               [.correction_intro (first.1 + 1) v first.2])
    | [] =>
      let stripped := rs.map (fun e => dictRemove e "Данные")
      .ok (ud, [.confirm_keyboard stripped])

/-- A message update as far as `prompt` inspects it. -/
structure IncomingMsg where
  user_id : Int
  edited : Bool := false
  has_message : Bool := true
  via_bot : Bool := false
  text : Option String := none
  has_file : Bool := false
  has_photo : Bool := false
deriving Repr

/-- `AgroReportTelegramBot.prompt` (lines 143–345).  `attachment` is the
outcome of `manage_attachment` (an external call; only consulted when the
message carries a document or photo) and `response` the value
`self.builder.build(query_text)` would return — the `builder_call` event
records whether that call is reached at all. -/
def prompt (cfg : BotConfig) (msg : IncomingMsg) (ud : UserData)
    (attachment : Except Unit String) (response : BuildRes) :
    Except PyExc (UserData × List BotEvent) :=
  if msg.edited ∨ ¬ msg.has_message ∨ msg.via_bot then .ok (ud, [])
  else if ¬ is_allowed cfg msg.user_id then
    -- check_allowed (lines 81–100): warning log + fixed refusal reply, no processing
    .ok (ud, [.warn_not_allowed, .disallowed_reply])
  else if ud.awaiting_correction then handle_correction_reply msg.text ud
  else if msg.has_file ∨ msg.has_photo then
    match attachment with
    | .error _ => .ok (ud, [.file_processing_notice, .attachment_failed_notice])
    | .ok _ =>
      match handle_build_result response ud with
      | .error e => .error e
      | .ok (ud', evs) =>
        .ok (ud', [.file_processing_notice, .building_notice, .builder_call] ++ evs)
  else
    match handle_build_result response ud with
    | .error e => .error e
    | .ok (ud', evs) => .ok (ud', [.building_notice, .builder_call] ++ evs)

/-! ### db/interaction.py — persistence operations -/

/-- Modelled from the spec: the `OperationInfo` entity is declared in
db/models.py, which is not among the sources; §6 lists its columns
`id, date, unit, operation, cultura, GA_per_day, GA_per_operation,
val_per_day, val_per_operation`.  Column values are kept abstract as
strings. -/
structure OperationInfo where
  id : Nat
  date : String
  unit : String
  operation : String
  cultura : String
  GA_per_day : String
  GA_per_operation : String
  val_per_day : String
  val_per_operation : String
deriving DecidableEq, Repr

/-- The sparse `new_data` mapping: only the eight known keys are consulted
(`'date' in new_data`, …); unknown keys are ignored by the code. -/
structure NewData where
  date : Option String := none
  unit : Option String := none
  operation : Option String := none
  cultura : Option String := none
  GA_per_day : Option String := none
  GA_per_operation : Option String := none
  val_per_day : Option String := none
  val_per_operation : Option String := none
deriving DecidableEq, Repr

/-- Lines 33–49: the eight `if key in new_data` assignments applied to the
loaded row. -/
def apply_new_data (r : OperationInfo) (nd : NewData) : OperationInfo :=
  let r := match nd.date with | some v => { r with date := v } | none => r
  let r := match nd.unit with | some v => { r with unit := v } | none => r
  let r := match nd.operation with | some v => { r with operation := v } | none => r
  let r := match nd.cultura with | some v => { r with cultura := v } | none => r
  let r := match nd.GA_per_day with | some v => { r with GA_per_day := v } | none => r
  let r := match nd.GA_per_operation with | some v => { r with GA_per_operation := v } | none => r
  let r := match nd.val_per_day with | some v => { r with val_per_day := v } | none => r
  match nd.val_per_operation with | some v => { r with val_per_operation := v } | none => r

/-- `update_record_by_id` (lines 22–53).  The table is the ordered list of
rows; `query(...).filter(OperationInfo.id == record_id).first()` selects the
first row with the identifier.  On a hit the present fields are overwritten
and the session committed; on a miss the function returns `None` without
touching the table.  Returns (function result, table after commit). -/
def update_record_by_id (db : List OperationInfo) (record_id : Nat) (nd : NewData) :
    Option OperationInfo × List OperationInfo :=
  match db with
  | [] => (none, [])
  | r :: rest =>
    if r.id = record_id then
      let r' := apply_new_data r nd
      (some r', r' :: rest)
    else
      let p := update_record_by_id rest record_id nd
      (p.1, r :: p.2)

/-! ### app/dashboard.py — analytics dashboard

pandas timestamps carry a calendar date plus a time-of-day; `normalize()`
zeroes the time.  A frame cell of the date column is either a typed
timestamp (as produced by `load_data`'s day-first `pd.to_datetime`) or, after
the export block, plain text. -/

structure Ts where
  date : Date
  sec : Nat
deriving DecidableEq, Repr

/-- `pd.Timestamp.normalize()`. -/
def normalizeTs (t : Ts) : Ts := ⟨t.date, 0⟩

def dateKey (d : Date) : Nat := d.year * 10000 + d.month * 100 + d.day

def tsKey (t : Ts) : Nat := dateKey t.date * 100000 + t.sec

/-- Chronological order on timestamps (dates here are calendar-valid, so the
lexicographic key is faithful). -/
def tsLe (a b : Ts) : Bool := tsKey a ≤ tsKey b

inductive DCell where
  | ts (t : Ts)
  | txt (s : String)
deriving DecidableEq, Repr

/-- One row of the dashboard frame, Cyrillic spreadsheet headers. -/
structure DRow where
  «Дата» : DCell
  «Культура» : String
  «Операция» : String
  «Подразделение» : String
  «За_день_га» : Int
  «С_начала_операции_га» : Int
deriving DecidableEq, Repr

/-- The sidebar radio (lines 18–21): "Вся история" / "Выбрать период" /
"Сегодня". -/
inductive FilterMode where
  | allHistory
  | period
  | today
deriving DecidableEq, Repr

/-- `df["Дата"] >= pd.to_datetime(start_date)` on one cell.  A text cell
would make pandas raise; in this script both date filters run before the
export block, so the cells compared are always typed timestamps. -/
def cellGe (c : DCell) (t : Ts) : Bool :=
  match c with
  | .ts t' => tsLe t t'
  | .txt _ => false

def cellLe (c : DCell) (t : Ts) : Bool :=
  match c with
  | .ts t' => tsLe t' t
  | .txt _ => false

/-- Lines 24–27: inclusive date-range filter. -/
def filter_period (df : List DRow) (s e : Ts) : List DRow :=
  df.filter (fun r => cellGe r.«Дата» s && cellLe r.«Дата» e)

/-- Lines 29–31: `today = pd.to_datetime("today").normalize();
df = df[df["Дата"] == today]`.  Elementwise `==` between a text cell and a
timestamp is simply `False` in pandas, matching `DCell` equality. -/
def filter_today (df : List DRow) (now : Ts) : List DRow :=
  df.filter (fun r => r.«Дата» == DCell.ts (normalizeTs now))

/-- Line 37: `df["Дата"] = df["Дата"].dt.strftime("%d.%m.%Y")` on one cell. -/
def exportCell (c : DCell) : DCell :=
  match c with
  | .ts t => .txt (renderDMY t.date)
  | .txt s => .txt s

structure DashOut where
  /-- The frame after the export block — the excel sheet is written from it
  and, because the reassignment is in place, the three tabs consume the very
  same frame afterwards. -/
  df_final : List DRow
  file_name : String
deriving DecidableEq, Repr

/-- One run of dashboard.py after `load_data` (which parses the date column
day-first into typed timestamps).  `start_pick`/`end_pick` are the values of
the two `date_input` pickers, consulted only in period mode (their defaults,
the frame's min/max date, are a UI concern).  In the other two modes the
local names `start_date`/`end_date` are never bound, and the
`download_button` call's `file_name` f-string (line 45) raises `NameError`
— after the in-place date mutation has already happened. -/
def dashboard_script (data : List DRow) (mode : FilterMode)
    (start_pick end_pick : Ts) (now : Ts) : Except PyExc DashOut :=
  let df1 :=
    match mode with
    | .period => filter_period data start_pick end_pick
    | .today => filter_today data now
    | .allHistory => data
  let df2 := df1.map (fun r => { r with «Дата» := exportCell r.«Дата» })
  match mode with
  | .period =>
    .ok ⟨df2, "отчет_" ++ renderYMD start_pick.date ++ "_"
                ++ renderYMD end_pick.date ++ ".xlsx"⟩
  | _ => .error .nameError


/-! ### Concrete fixtures used by the closed theorems below -/

/-- Display-key layout of a successfully built record: the three required
dump keys (including the raw excerpt `Данные`), the optional categorical
keys when present, then the four renamed numeric display keys. -/
def displayKeys (hasP hasK : Bool) : List String :=
  ["Дата", "Операция", "Данные"]
  ++ (if hasP then ["Подразделение"] else [])
  ++ (if hasK then ["Культура"] else [])
  ++ ["За день, га", "С начала операции, га", "Вал за день, ц", "Вал с начала, ц"]

/-- A small taxonomy assignment for `load_entities()`. -/
def entsFix : Entities := ⟨["Сев"], ["Пшеница"], ["Юг"]⟩

/-- A raw completion entry that passes every validator, all fields present. -/
def rawFull : RawEntry :=
  { «Дата» := some (.str "15.03.2024"), «Операция» := some (.str "Сев"),
    «Данные» := some (.str "сев пшеницы 10 га"),
    «Подразделение» := some (.str "Юг"), «Культура» := some (.str "Пшеница"),
    «За_день_га» := some (.int 10), «С_начала_операции_га» := some (.int 20),
    «Вал_за_день_ц» := some (.int 5), «Вал_с_начала_ц» := some (.int 8) }

/-- Like `rawFull` but with the per-day area absent. -/
def rawNoArea : RawEntry := { rawFull with «За_день_га» := none }

/-- Oracle: a clean one-entry report; every refinement stage returns the
same valid entry. -/
def oracleOk : Oracle := fun n => if n = 0 then .json (.list [rawFull]) else .json (.dict rawFull)

/-- Oracle: valid stages, but the per-day area field never appears. -/
def oracleNoArea : Oracle :=
  fun n => if n = 0 then .json (.list [rawNoArea]) else .json (.dict rawNoArea)

/-- Oracle: a clean first stage, then a completion that parses as a JSON
scalar — `OperationEntry(**parsed)` raises `TypeError` on it. -/
def oracleScalar : Oracle := fun n => if n = 0 then .json (.list [rawFull]) else .json .scalar

/-- The record `build entsFix oracleOk` produces (checked by `rfl` below). -/
def recordFix : Dict :=
  [("Дата", .str "15.03.2024"), ("Операция", .str "Сев"),
   ("Данные", .str "сев пшеницы 10 га"),
   ("Подразделение", .str "Юг"), ("Культура", .str "Пшеница"),
   ("За день, га", .int 10), ("С начала операции, га", .int 20),
   ("Вал за день, ц", .int 5), ("Вал с начала, ц", .int 8)]

def cfgFix : BotConfig := ⟨[7], [9]⟩

/-- A built record with two sentinel fields, as handed to the correction
dialogue (raw excerpt still present). -/
def dictUndef : Dict :=
  [("Дата", .str "15.03.2024"), ("Операция", .str "Сев"),
   ("Данные", .str "сев 10 га"),
   ("Подразделение", .str "Не определено"), ("Культура", .str "Не определено")]

/-- Session state awaiting the first of two corrections on the single
entry 0. -/
def udFix : UserData :=
  { awaiting_correction := true,
    corrections := some ⟨[dictUndef], [(0, "Подразделение"), (0, "Культура")], 0⟩,
    corrected_entries := none }

def rowDb1 : OperationInfo := ⟨1, "15.03.2024", "Юг", "Сев", "Пшеница", "10", "20", "5", "8"⟩

def rowDb2 : OperationInfo := ⟨2, "16.03.2024", "Север", "Полив", "Рожь", "3", "7", "1", "2"⟩

def ndFix : NewData := { operation := some "Культивация", GA_per_day := some "12" }

/-- One loaded dashboard row with a typed (parsed) timestamp date. -/
def rowFix : DRow := ⟨.ts ⟨⟨15, 3, 2024⟩, 0⟩, "Пшеница", "Сев", "Юг", 10, 20⟩

/-! ## Theorems

First the general lemmas about digit rendering and `strptime` parsing, then
one theorem (with witness or counterexample where required) per claim. -/

theorem digitChar_toNat (k : Nat) (h : k < 10) : (digitChar k).toNat = 48 + k := by
  interval_cases k <;> decide

theorem isDigitC_digitChar (k : Nat) (h : k < 10) : isDigitC (digitChar k) = true := by
  simp [isDigitC, digitChar_toNat k h]
  omega

theorem charDigit_digitChar (k : Nat) (h : k < 10) : charDigit (digitChar k) = k := by
  simp [charDigit, digitChar_toNat k h]

theorem digitChar_ne (k : Nat) (h : k < 10) (c : Char) (hc : 58 ≤ c.toNat ∨ c.toNat < 48) :
    digitChar k ≠ c := by
  intro he
  have := digitChar_toNat k h
  rw [he] at this
  omega

theorem splitOnC_nosep (sep : Char) (l : List Char) (h : ∀ c ∈ l, c ≠ sep) :
    splitOnC sep l = [l] := by
  induction l with
  | nil => rfl
  | cons c cs ih =>
    have hc : c ≠ sep := h c (List.mem_cons_self ..)
    have hr := ih (fun x hx => h x (List.mem_cons_of_mem _ hx))
    simp [splitOnC, hc, hr]

theorem splitOnC_append (sep : Char) (l rest : List Char) (h : ∀ c ∈ l, c ≠ sep) :
    splitOnC sep (l ++ sep :: rest) = l :: splitOnC sep rest := by
  induction l with
  | nil => simp [splitOnC]
  | cons c cs ih =>
    have hc : c ≠ sep := h c (List.mem_cons_self ..)
    have hr := ih (fun x hx => h x (List.mem_cons_of_mem _ hx))
    simp [splitOnC, hc, hr]

theorem dayPat_pad2 (d : Nat) (h1 : 1 ≤ d) (h2 : d ≤ 31) : dayPat (pad2 d).data = some d := by
  have ha : d / 10 % 10 < 10 := Nat.mod_lt _ (by norm_num)
  have hb : d % 10 < 10 := Nat.mod_lt _ (by norm_num)
  have hv : 10 * (d / 10 % 10) + d % 10 = d := by omega
  simp [pad2, dayPat, isDigitC_digitChar _ ha, isDigitC_digitChar _ hb, digitsVal,
    charDigit_digitChar _ ha, charDigit_digitChar _ hb, hv, h1, h2]

theorem monthPat_pad2 (m : Nat) (h1 : 1 ≤ m) (h2 : m ≤ 12) : monthPat (pad2 m).data = some m := by
  have ha : m / 10 % 10 < 10 := Nat.mod_lt _ (by norm_num)
  have hb : m % 10 < 10 := Nat.mod_lt _ (by norm_num)
  have hv : 10 * (m / 10 % 10) + m % 10 = m := by omega
  simp [pad2, monthPat, isDigitC_digitChar _ ha, isDigitC_digitChar _ hb, digitsVal,
    charDigit_digitChar _ ha, charDigit_digitChar _ hb, hv, h1, h2]

theorem yearPat_pad4 (y : Nat) (h : y ≤ 9999) : yearPat (pad4 y).data = some y := by
  have ha : y / 1000 % 10 < 10 := Nat.mod_lt _ (by norm_num)
  have hb : y / 100 % 10 < 10 := Nat.mod_lt _ (by norm_num)
  have hc : y / 10 % 10 < 10 := Nat.mod_lt _ (by norm_num)
  have hd : y % 10 < 10 := Nat.mod_lt _ (by norm_num)
  have hv : 10 * (10 * (10 * (y / 1000 % 10) + y / 100 % 10) + y / 10 % 10) + y % 10 = y := by
    omega
  simp [pad4, yearPat, isDigitC_digitChar _ ha, isDigitC_digitChar _ hb,
    isDigitC_digitChar _ hc, isDigitC_digitChar _ hd, digitsVal,
    charDigit_digitChar _ ha, charDigit_digitChar _ hb, charDigit_digitChar _ hc,
    charDigit_digitChar _ hd, hv]

theorem pad2_no_dot (n : Nat) : ∀ c ∈ (pad2 n).data, c ≠ '.' := by
  intro c hc
  have ha : n / 10 % 10 < 10 := Nat.mod_lt _ (by norm_num)
  have hb : n % 10 < 10 := Nat.mod_lt _ (by norm_num)
  simp [pad2] at hc
  rcases hc with h | h <;> subst h
  · exact digitChar_ne _ ha _ (by right; decide)
  · exact digitChar_ne _ hb _ (by right; decide)

theorem pad4_no_dot (n : Nat) : ∀ c ∈ (pad4 n).data, c ≠ '.' := by
  intro c hc
  have ha : n / 1000 % 10 < 10 := Nat.mod_lt _ (by norm_num)
  have hb : n / 100 % 10 < 10 := Nat.mod_lt _ (by norm_num)
  have hc' : n / 10 % 10 < 10 := Nat.mod_lt _ (by norm_num)
  have hd : n % 10 < 10 := Nat.mod_lt _ (by norm_num)
  simp [pad4] at hc
  rcases hc with h | h | h | h <;> subst h
  · exact digitChar_ne _ ha _ (by right; decide)
  · exact digitChar_ne _ hb _ (by right; decide)
  · exact digitChar_ne _ hc' _ (by right; decide)
  · exact digitChar_ne _ hd _ (by right; decide)

theorem renderDMY_data (d : Date) :
    (renderDMY d).data
      = (pad2 d.day).data ++ '.' :: ((pad2 d.month).data ++ '.' :: (pad4 d.year).data) := by
  simp [renderDMY, String.data_append]

theorem strptimeDMY_render (d m y : Nat) (h1 : 1 ≤ d) (h2 : d ≤ 31) (h3 : 1 ≤ m)
    (h4 : m ≤ 12) (h5 : y ≤ 9999) (h6 : 1 ≤ y) (h7 : d ≤ daysInMonth y m) :
    strptimeDMY (renderDMY ⟨d, m, y⟩) = some ⟨d, m, y⟩ := by
  have hsplit : splitOnC '.' (renderDMY ⟨d, m, y⟩).data
      = [(pad2 d).data, (pad2 m).data, (pad4 y).data] := by
    rw [renderDMY_data]
    rw [splitOnC_append '.' _ _ (pad2_no_dot d)]
    rw [splitOnC_append '.' _ _ (pad2_no_dot m)]
    rw [splitOnC_nosep '.' _ (pad4_no_dot y)]
  rw [strptimeDMY, hsplit]
  simp [dayPat_pad2 d h1 h2, monthPat_pad2 m h3 h4, yearPat_pad4 y h5, mkDate, h6, h7]

theorem pad2_no_dash (n : Nat) : ∀ c ∈ (pad2 n).data, c ≠ '-' := by
  intro c hc
  have ha : n / 10 % 10 < 10 := Nat.mod_lt _ (by norm_num)
  have hb : n % 10 < 10 := Nat.mod_lt _ (by norm_num)
  simp [pad2] at hc
  rcases hc with h | h <;> subst h
  · exact digitChar_ne _ ha _ (by right; decide)
  · exact digitChar_ne _ hb _ (by right; decide)

theorem pad4_no_dash (n : Nat) : ∀ c ∈ (pad4 n).data, c ≠ '-' := by
  intro c hc
  have ha : n / 1000 % 10 < 10 := Nat.mod_lt _ (by norm_num)
  have hb : n / 100 % 10 < 10 := Nat.mod_lt _ (by norm_num)
  have hc' : n / 10 % 10 < 10 := Nat.mod_lt _ (by norm_num)
  have hd : n % 10 < 10 := Nat.mod_lt _ (by norm_num)
  simp [pad4] at hc
  rcases hc with h | h | h | h <;> subst h
  · exact digitChar_ne _ ha _ (by right; decide)
  · exact digitChar_ne _ hb _ (by right; decide)
  · exact digitChar_ne _ hc' _ (by right; decide)
  · exact digitChar_ne _ hd _ (by right; decide)

theorem renderYMD_data (d : Date) :
    (renderYMD d).data
      = (pad4 d.year).data ++ '-' :: ((pad2 d.month).data ++ '-' :: (pad2 d.day).data) := by
  simp [renderYMD, String.data_append]

theorem renderYMD_no_dot (d : Date) : ∀ c ∈ (renderYMD d).data, c ≠ '.' := by
  intro c hc
  rw [renderYMD_data] at hc
  simp at hc
  rcases hc with h | h | h | h
  · exact pad4_no_dot _ c h
  · subst h; decide
  · exact pad2_no_dot _ c h
  · rcases h with h | h
    · subst h; decide
    · exact pad2_no_dot _ c h

theorem strptimeDMY_no_dot (s : String) (h : ∀ c ∈ s.data, c ≠ '.') :
    strptimeDMY s = none := by
  rw [strptimeDMY, splitOnC_nosep '.' _ h]

theorem strptimeYMD_render (d m y : Nat) (h1 : 1 ≤ d) (h2 : d ≤ 31) (h3 : 1 ≤ m)
    (h4 : m ≤ 12) (h5 : y ≤ 9999) (h6 : 1 ≤ y) (h7 : d ≤ daysInMonth y m) :
    strptimeYMD (renderYMD ⟨d, m, y⟩) = some ⟨d, m, y⟩ := by
  have hsplit : splitOnC '-' (renderYMD ⟨d, m, y⟩).data
      = [(pad4 y).data, (pad2 m).data, (pad2 d).data] := by
    rw [renderYMD_data]
    rw [splitOnC_append '-' _ _ (pad4_no_dash y)]
    rw [splitOnC_append '-' _ _ (pad2_no_dash m)]
    rw [splitOnC_nosep '-' _ (pad2_no_dash d)]
  rw [strptimeYMD, hsplit]
  simp [dayPat_pad2 d h1 h2, monthPat_pad2 m h3 h4, yearPat_pad4 y h5, mkDate, h6, h7]

theorem daysInMonth_le_31 (y m : Nat) : daysInMonth y m ≤ 31 := by
  unfold daysInMonth
  split
  · split <;> omega
  · split <;> omega

theorem validate_date_renderDMY (d m y : Nat) (h1 : 1 ≤ d) (h3 : 1 ≤ m)
    (h4 : m ≤ 12) (h5 : y ≤ 9999) (h6 : 1 ≤ y) (h7 : d ≤ daysInMonth y m) :
    validate_date (renderDMY ⟨d, m, y⟩) = .ok ⟨d, m, y⟩ := by
  have h2 : d ≤ 31 := le_trans h7 (daysInMonth_le_31 y m)
  rw [validate_date]
  simp only [strptimeDMY_render d m y h1 h2 h3 h4 h5 h6 h7]

theorem validate_date_renderYMD (d m y : Nat) (h1 : 1 ≤ d) (h3 : 1 ≤ m)
    (h4 : m ≤ 12) (h5 : y ≤ 9999) (h6 : 1 ≤ y) (h7 : d ≤ daysInMonth y m) :
    validate_date (renderYMD ⟨d, m, y⟩) = .ok ⟨d, m, y⟩ := by
  have h2 : d ≤ 31 := le_trans h7 (daysInMonth_le_31 y m)
  rw [validate_date]
  simp only [strptimeDMY_no_dot _ (renderYMD_no_dot ⟨d, m, y⟩),
    strptimeYMD_render d m y h1 h2 h3 h4 h5 h6 h7,
    strptimeDMY_render d m y h1 h2 h3 h4 h5 h6 h7]

theorem validate_date_reject (s : String) (hd : strptimeDMY s = none)
    (hy : strptimeYMD s = none) : validate_date s = .error "Invalid date format" := by
  rw [validate_date, hd, hy]

/-- C5: a date given as `DD.MM.YYYY` or as `YYYY-MM-DD` is accepted by
`validate_date` and the record under either input displays the same
`DD.MM.YYYY` text, while a string in another format (the claim's example
`"2024/03/15"`) is rejected as an invalid-input failure. -/
theorem claim_C5 (d m y : Nat) (h1 : 1 ≤ d) (h2 : 1 ≤ m) (h3 : m ≤ 12)
    (h4 : 1 ≤ y) (h5 : y ≤ 9999) (h6 : d ≤ daysInMonth y m) :
    (validate_date (renderDMY ⟨d, m, y⟩)).map renderDMY = .ok (renderDMY ⟨d, m, y⟩)
    ∧ (validate_date (renderYMD ⟨d, m, y⟩)).map renderDMY = .ok (renderDMY ⟨d, m, y⟩)
    ∧ validate_date "2024/03/15" = .error "Invalid date format" := by
  refine ⟨?_, ?_, by rfl⟩
  · rw [validate_date_renderDMY d m y h1 h2 h3 h5 h4 h6]; rfl
  · rw [validate_date_renderYMD d m y h1 h2 h3 h5 h4 h6]; rfl

/-- Witness for C5 at 15 March 2024. -/
theorem claim_C5_witness :
    ((validate_date (renderDMY ⟨15, 3, 2024⟩)).map renderDMY = .ok (renderDMY ⟨15, 3, 2024⟩)
      ∧ (validate_date (renderYMD ⟨15, 3, 2024⟩)).map renderDMY = .ok (renderDMY ⟨15, 3, 2024⟩)
      ∧ validate_date "2024/03/15" = .error "Invalid date format")
    ∧ renderDMY ⟨15, 3, 2024⟩ = "15.03.2024" ∧ renderYMD ⟨15, 3, 2024⟩ = "2024-03-15" :=
  ⟨claim_C5 15 3 2024 (by decide) (by decide) (by decide) (by decide) (by decide) (by decide),
   by decide, by decide⟩

/-- C9: the "today" filter of the dashboard keeps exactly the rows whose date
cell equals the current timestamp normalized to midnight. -/
theorem claim_C9 (df : List DRow) (now : Ts) (r : DRow) :
    r ∈ filter_today df now ↔ r ∈ df ∧ r.«Дата» = DCell.ts (normalizeTs now) := by
  simp [filter_today, List.mem_filter]

/-- C10: when a completion parses as JSON but fails schema validation while
the stage's target field is none of the three known categorical fields,
`_correct_fields` raises `UnboundLocalError` before building any correction
prompt (no LLM call, no corrected record), and `_validate` propagates it. -/
theorem claim_C10 (ents : Entities) (o : Oracle) (e : RawEntry) (field : Option String)
    (n : Nat) (hf1 : field ≠ some "Операция") (hf2 : field ≠ some "Культура")
    (hf3 : field ≠ some "Подразделение")
    (he : validateEntry ents e = .error .validationError) :
    correct_fields ents o field n = .error .unboundLocalError
    ∧ validate_entry ents o (.json (.dict e)) field n = .error .unboundLocalError := by
  have hcf : correct_fields ents o field n = .error .unboundLocalError := by
    simp [correct_fields, hf1, hf2, hf3]
  refine ⟨hcf, ?_⟩
  simp [validate_entry, he, hcf]

/-- Witness for C10: the empty JSON object at the final computation stage
(`field = None`). -/
theorem claim_C10_witness :
    correct_fields entsFix oracleOk none 0 = .error .unboundLocalError
    ∧ validate_entry entsFix oracleOk (.json (.dict {})) none 0 = .error .unboundLocalError :=
  claim_C10 entsFix oracleOk {} none 0 (by decide) (by decide) (by decide) (by rfl)

/-- C7: a sender outside both the allow-list and the admin list receives the
fixed refusal reply, and the builder is never invoked for that message. -/
theorem claim_C7 (cfg : BotConfig) (msg : IncomingMsg) (ud : UserData)
    (att : Except Unit String) (resp : BuildRes)
    (hok : msg.edited = false) (hmsg : msg.has_message = true) (hvb : msg.via_bot = false)
    (h1 : msg.user_id ∉ cfg.allowed_ids) (h2 : msg.user_id ∉ cfg.admin_ids) :
    prompt cfg msg ud att resp = .ok (ud, [.warn_not_allowed, .disallowed_reply])
    ∧ BotEvent.builder_call ∉ [BotEvent.warn_not_allowed, BotEvent.disallowed_reply] := by
  have hall : is_allowed cfg msg.user_id = false := by simp [is_allowed, h1, h2]
  refine ⟨?_, by decide⟩
  simp [prompt, hok, hmsg, hvb, hall]

/-- Witness for C7: user 3 against allow-list [7] and admins [9]. -/
theorem claim_C7_witness :
    prompt cfgFix { user_id := 3, text := some "отчёт" } {} (.ok "") .errorText
      = .ok ({}, [.warn_not_allowed, .disallowed_reply])
    ∧ BotEvent.builder_call ∉ [BotEvent.warn_not_allowed, BotEvent.disallowed_reply] :=
  claim_C7 cfgFix { user_id := 3, text := some "отчёт" } {} (.ok "") .errorText
    rfl rfl rfl (by decide) (by decide)

/-- C2 failing input: one entry with two queued corrections.  After the first
reply is written, the next prompt evaluates `entries[entry_number]` with the
1-based display number `next_entry_idx + 1 = 1` on the 1-element entry list
(line 184 of telegram_bot.py) and the handler crashes with `IndexError`
instead of prompting with the pending entry's raw excerpt. -/
theorem claim_C2 :
    prompt cfgFix { user_id := 7, text := some "Юг" } udFix (.ok "") .errorText
      = .error .indexError := rfl

/-- C4 failing run: in period mode the export block rewrites the date column
of the one in-memory frame to `DD.MM.YYYY` text, and the tab views consume
that mutated frame (`df_final`) afterwards — the dates the aggregation code
sees are text, not typed timestamps. -/
theorem claim_C4 :
    dashboard_script [rowFix] .period ⟨⟨15, 3, 2024⟩, 0⟩ ⟨⟨15, 3, 2024⟩, 0⟩ ⟨⟨16, 3, 2024⟩, 0⟩
      = .ok ⟨[{ rowFix with «Дата» := .txt "15.03.2024" }],
             "отчет_2024-03-15_2024-03-15.xlsx"⟩ := rfl

/-- C8 failing run: in the "all history" and "today" filter modes the
`download_button` call raises `NameError` (the `file_name` f-string reads
`start_date`/`end_date`, bound only in the period branch), so the script dies
instead of offering the download control. -/
theorem claim_C8 :
    dashboard_script [rowFix] .allHistory ⟨⟨1, 1, 2024⟩, 0⟩ ⟨⟨31, 12, 2024⟩, 0⟩ ⟨⟨16, 3, 2024⟩, 0⟩
      = .error .nameError
    ∧ dashboard_script [rowFix] .today ⟨⟨1, 1, 2024⟩, 0⟩ ⟨⟨31, 12, 2024⟩, 0⟩ ⟨⟨16, 3, 2024⟩, 0⟩
      = .error .nameError := ⟨rfl, rfl⟩

theorem update_missing (db : List OperationInfo) (rid : Nat) (nd : NewData)
    (h : ∀ r ∈ db, r.id ≠ rid) : update_record_by_id db rid nd = (none, db) := by
  induction db with
  | nil => rfl
  | cons x xs ih =>
    have hx : ¬ x.id = rid := h x (List.mem_cons_self ..)
    simp [update_record_by_id, hx, ih (fun z hz => h z (List.mem_cons_of_mem _ hz))]

theorem update_found (pre : List OperationInfo) (r : OperationInfo) (post : List OperationInfo)
    (rid : Nat) (nd : NewData) (hpre : ∀ x ∈ pre, x.id ≠ rid) (hr : r.id = rid) :
    update_record_by_id (pre ++ r :: post) rid nd
      = (some (apply_new_data r nd), pre ++ apply_new_data r nd :: post) := by
  induction pre with
  | nil => simp [update_record_by_id, hr]
  | cons x xs ih =>
    have hx : ¬ x.id = rid := hpre x (List.mem_cons_self ..)
    simp [update_record_by_id, hx, ih (fun z hz => hpre z (List.mem_cons_of_mem _ hz))]

theorem apply_new_data_proj (r : OperationInfo) (nd : NewData) :
    apply_new_data r nd
      = { id := r.id,
          date := nd.date.getD r.date, unit := nd.unit.getD r.unit,
          operation := nd.operation.getD r.operation, cultura := nd.cultura.getD r.cultura,
          GA_per_day := nd.GA_per_day.getD r.GA_per_day,
          GA_per_operation := nd.GA_per_operation.getD r.GA_per_operation,
          val_per_day := nd.val_per_day.getD r.val_per_day,
          val_per_operation := nd.val_per_operation.getD r.val_per_operation } := by
  rcases nd with ⟨d, u, op, c, g1, g2, v1, v2⟩
  cases d <;> cases u <;> cases op <;> cases c <;> cases g1 <;> cases g2 <;>
    cases v1 <;> cases v2 <;> rfl

/-- C6: `update_record_by_id` on a missing identifier returns an absent
result and leaves the table untouched; on a hit it updates the first row
with that identifier in place, leaving every other row unchanged, and the
updated row keeps each column not named in `new_data` and takes the value of
each column that is named (`Option.getD`). -/
theorem claim_C6 (db : List OperationInfo) (rid : Nat) (nd : NewData) :
    ((∀ r ∈ db, r.id ≠ rid) → update_record_by_id db rid nd = (none, db))
    ∧ (∀ pre r post, db = pre ++ r :: post → (∀ x ∈ pre, x.id ≠ rid) → r.id = rid →
        update_record_by_id db rid nd
          = (some (apply_new_data r nd), pre ++ apply_new_data r nd :: post))
    ∧ (∀ r : OperationInfo,
        (apply_new_data r nd).id = r.id
        ∧ (apply_new_data r nd).date = nd.date.getD r.date
        ∧ (apply_new_data r nd).unit = nd.unit.getD r.unit
        ∧ (apply_new_data r nd).operation = nd.operation.getD r.operation
        ∧ (apply_new_data r nd).cultura = nd.cultura.getD r.cultura
        ∧ (apply_new_data r nd).GA_per_day = nd.GA_per_day.getD r.GA_per_day
        ∧ (apply_new_data r nd).GA_per_operation = nd.GA_per_operation.getD r.GA_per_operation
        ∧ (apply_new_data r nd).val_per_day = nd.val_per_day.getD r.val_per_day
        ∧ (apply_new_data r nd).val_per_operation
            = nd.val_per_operation.getD r.val_per_operation) := by
  refine ⟨update_missing db rid nd, ?_, ?_⟩
  · intro pre r post hdb hpre hr
    subst hdb
    exact update_found pre r post rid nd hpre hr
  · intro r
    simp [apply_new_data_proj]

/-- Witness for C6 on a two-row table: a miss with identifier 3, a hit on the
second row with identifier 2, and the concrete updated row. -/
theorem claim_C6_witness :
    update_record_by_id [rowDb1, rowDb2] 3 ndFix = (none, [rowDb1, rowDb2])
    ∧ update_record_by_id [rowDb1, rowDb2] 2 ndFix
        = (some (apply_new_data rowDb2 ndFix), [rowDb1, apply_new_data rowDb2 ndFix])
    ∧ apply_new_data rowDb2 ndFix
        = ⟨2, "16.03.2024", "Север", "Культивация", "Рожь", "12", "7", "1", "2"⟩ := by
  refine ⟨(claim_C6 [rowDb1, rowDb2] 3 ndFix).1 (by decide), ?_, by rfl⟩
  exact (claim_C6 [rowDb1, rowDb2] 2 ndFix).2.1 [rowDb1] rowDb2 [] rfl (by decide) (by decide)

theorem renameItem_dump (ve : OperationEntry) :
    (∃ d', renameItem (dumpEntry ve) = .ok d'
        ∧ dictKeys d' = displayKeys ve.«Подразделение».isSome ve.«Культура».isSome)
    ∨ renameItem (dumpEntry ve) = .error .keyError := by
  obtain ⟨dte, op, dat, P, K, a, b, c, v⟩ := ve
  cases P <;> cases K <;> cases a <;> cases b <;> cases c <;> cases v <;>
    first
      | exact Or.inl ⟨_, rfl, rfl⟩
      | exact Or.inr rfl

theorem validate_entry_dump (ents : Entities) (o : Oracle) (report : LLMOut)
    (field : Option String) (n : Nat) (d : Dict) (n' : Nat)
    (h : validate_entry ents o report field n = .ok (d, n')) : ∃ ve, d = dumpEntry ve := by
  unfold validate_entry at h
  repeat' split at h
  all_goals cases h
  all_goals exact ⟨_, rfl⟩

theorem validate_initial_dump (ents : Entities) (o : Oracle) (report : LLMOut)
    (field : Option String) (n : Nat) (rs : List Dict) (n' : Nat)
    (h : validate_initial ents o report field n = .ok (rs, n')) :
    ∃ ves : List OperationEntry, rs = ves.map dumpEntry := by
  unfold validate_initial at h
  repeat' split at h
  all_goals cases h
  all_goals exact ⟨_, rfl⟩

theorem gather_dump (ents : Entities) (o : Oracle) (entries : List Dict)
    (field : Option String) :
    ∀ n rs n', gather_validated ents o entries field n = .ok (rs, n') →
      ∀ r ∈ rs, ∃ ve, r = dumpEntry ve := by
  induction entries with
  | nil =>
    intro n rs n' h r hr
    unfold gather_validated at h
    cases h
    exact (List.not_mem_nil r hr).elim
  | cons e rest ih =>
    intro n rs n' h r hr
    unfold gather_validated at h
    split at h
    rename_i raw n1 hpred
    split at h
    · exact absurd h (by simp)
    · rename_i d0 n2 hval
      split at h
      · exact absurd h (by simp)
      · rename_i ds n3 hgather
        cases h
        rcases List.mem_cons.mp hr with hre | hrm
        · subst hre
          exact validate_entry_dump _ _ _ _ _ _ _ hval
        · exact ih _ _ _ hgather r hrm

theorem renameAll_shape (items : List Dict) (hd : ∀ r ∈ items, ∃ ve, r = dumpEntry ve) :
    (∃ out, renameAll items = .ok out
        ∧ ∀ r ∈ out, ∃ p k, dictKeys r = displayKeys p k)
    ∨ renameAll items = .error .keyError := by
  induction items with
  | nil => exact Or.inl ⟨[], rfl, by simp⟩
  | cons item rest ih =>
    obtain ⟨ve, hve⟩ := hd item (List.mem_cons_self ..)
    subst hve
    rcases renameItem_dump ve with ⟨d', hd', hk⟩ | herr
    · rcases ih (fun r hr => hd r (List.mem_cons_of_mem _ hr)) with ⟨out, hout, hks⟩ | herr2
      · refine Or.inl ⟨d' :: out, ?_, ?_⟩
        · simp [renameAll, hd', hout]
        · intro r hr
          rcases List.mem_cons.mp hr with h | h
          · subst h
            exact ⟨_, _, hk⟩
          · exact hks r h
      · right
        simp [renameAll, hd', herr2]
    · right
      simp [renameAll, herr]

theorem build_shape (ents : Entities) (o : Oracle) (report : String) :
    build ents o report = .ok .errorText
    ∨ build ents o report = .error .keyError
    ∨ ∃ rs, build ents o report = .ok (.records rs)
        ∧ ∀ r ∈ rs, ∃ p k, dictKeys r = displayKeys p k := by
  unfold build
  split
  · exact Or.inl rfl
  · rename_i r1 n1 h1
    split
    · exact Or.inl rfl
    · rename_i r2 n2 h2
      split
      · exact Or.inl rfl
      · rename_i r3 n3 h3
        split
        · exact Or.inl rfl
        · rename_i r4 n4 h4
          have hd : ∀ r ∈ r4, ∃ ve, r = dumpEntry ve :=
            gather_dump ents o r3 none n3 r4 n4 h4
          rcases renameAll_shape r4 hd with ⟨out, hout, hks⟩ | herr
          · rw [hout]
            exact Or.inr (Or.inr ⟨out, rfl, hks⟩)
          · rw [herr]
            exact Or.inr (Or.inl rfl)

/-- C1 counterexample: a fully valid one-entry report builds successfully,
and the returned record's keys include the raw-excerpt key `Данные` — the
builder never strips it (the front end does, later); the claim says the
build result never includes it. -/
theorem claim_C1_counterexample :
    build entsFix oracleOk "отчёт" = .ok (.records [recordFix])
    ∧ "Данные" ∈ dictKeys recordFix := ⟨rfl, by decide⟩

/-- C1 as amended: `build` returns the fixed error text, or a list of
mappings whose keys are the eight display keys minus the absent optional
categorical fields plus the raw-excerpt key `Данные` (always present, in
builder order), or — when an entry lacks one of the four numeric fields —
it raises an uncaught `KeyError` from the final renaming loop. -/
theorem claim_C1_amended (ents : Entities) (o : Oracle) (report : String) :
    build ents o report = .ok .errorText
    ∨ build ents o report = .error .keyError
    ∨ ∃ rs, build ents o report = .ok (.records rs)
        ∧ ∀ r ∈ rs, ∃ p k, dictKeys r = displayKeys p k :=
  build_shape ents o report

/-- Closed instance of the amended C1 at a concrete oracle. -/
theorem claim_C1_amended_witness :
    build entsFix oracleOk "отчёт" = .ok .errorText
    ∨ build entsFix oracleOk "отчёт" = .error .keyError
    ∨ ∃ rs, build entsFix oracleOk "отчёт" = .ok (.records rs)
        ∧ ∀ r ∈ rs, ∃ p k, dictKeys r = displayKeys p k :=
  claim_C1_amended entsFix oracleOk "отчёт"

/-- C3 counterexample: at the second stage the completion parses as a JSON
scalar, `OperationEntry(**parsed)` raises `TypeError` — an unexpected,
unclassified failure during stage validation — and `build` returns the fixed
error text: the pipeline itself converts the failure instead of re-raising
it to the front end. -/
theorem claim_C3_counterexample :
    validate_entry entsFix oracleScalar (.json .scalar) (some "Культура") 2
      = .error .typeError
    ∧ build entsFix oracleScalar "отчёт" = .ok .errorText := ⟨rfl, rfl⟩

/-- C3 as amended: an unexpected failure during stage validation does
propagate out of `_validate` (first conjunct: the `TypeError` of a non-dict
parse escapes), but `build` wraps every stage in `except Exception: return
ERROR_TEXT`, so the only exceptions escaping `build` are the `KeyError`s of
the final renaming loop — stage failures reach the front end only as the
fixed error text. -/
theorem claim_C3_amended :
    (∀ (ents : Entities) (o : Oracle) (field : Option String) (n : Nat),
        validate_entry ents o (.json .scalar) field n = .error .typeError)
    ∧ (∀ (ents : Entities) (o : Oracle) (report : String) (e : PyExc),
        build ents o report = .error e → e = .keyError) := by
  constructor
  · intro ents o field n
    rfl
  · intro ents o report e h
    rcases build_shape ents o report with h1 | h1 | ⟨rs, h1, _⟩ <;> rw [h1] at h
    · exact absurd h (by simp)
    · cases h
      rfl
    · exact absurd h (by simp)

/-- Closed instance of the amended C3: the propagating stage failure, and a
concrete oracle on which `build` raises exactly `KeyError`. -/
theorem claim_C3_amended_witness :
    validate_entry entsFix oracleOk (.json .scalar) (some "Культура") 0 = .error .typeError
    ∧ PyExc.keyError = PyExc.keyError :=
  ⟨claim_C3_amended.1 entsFix oracleOk (some "Культура") 0,
   claim_C3_amended.2 entsFix oracleNoArea "отчёт" .keyError (by rfl)⟩


end Agro
